import Mathlib

/-!
Verification development for a small library-management REST API
(books, users, borrow/return transactions).

The development shallowly embeds:
* the persisted relational schema (models `Book`, `User`, `Transactions`,
  their field attributes, named indexes and foreign keys) as declarative
  Lean data, together with an executable satisfaction predicate for table
  instances;
* the registration validation chain (`registrationValidation`) as an
  ordered list of per-field checks with messages;
* the book router (`bookRouter`) as a list of verb+path+handler-chain
  bindings, together with an executable middleware-chain runner.
-/

/-! ## Values and rows -/

/-- A scalar value stored in a database column. -/
inductive Value
  | str (s : String)
  | int (i : Int)
  | bool (b : Bool)
  | dateTime (t : Nat)
  deriving DecidableEq, Repr

/-- A row assigns to each column name either a value or NULL (`none`). -/
abbrev Row := List (String × Option Value)

/-- Look up a column in a row: `none` when the column is absent,
`some none` when it is present and NULL. -/
def lookupRow (r : Row) (n : String) : Option (Option Value) :=
  match r.find? (fun p => p.1 == n) with
  | some p => some p.2
  | none => none

/-! ## Declarative schema, transcribed from the persisted schema file -/

/-- A `@default(...)` attribute on a schema field. -/
inductive FieldDefault
  | autoincrement
  | now
  | value (v : Value)
  deriving DecidableEq, Repr

/-- One field declaration of a schema model: name, base type, whether the
type is marked optional (`?`), and the `@id`, `@unique`, `@default`,
`@updatedAt` attributes. -/
structure FieldDecl where
  name : String
  baseType : String
  optional : Bool
  isId : Bool
  unique : Bool
  dflt : Option FieldDefault
  isUpdatedAt : Bool
  deriving DecidableEq, Repr

/-- A named `@@index([...], name: ...)` declaration. -/
structure IndexDecl where
  fields : List String
  indexName : String
  deriving DecidableEq, Repr

/-- A foreign key induced by a `@relation(fields: [...], references: [...])`
attribute: the local scalar field, the referenced model and its field. -/
structure ForeignKeyDecl where
  field : String
  refModel : String
  refField : String
  deriving DecidableEq, Repr

/-- A schema model: scalar fields (relation list fields are virtual and
carry no column), named indexes, composite `@@unique` constraints, and
foreign keys. -/
structure ModelDecl where
  name : String
  fields : List FieldDecl
  indexes : List IndexDecl
  uniques : List (List String)
  foreignKeys : List ForeignKeyDecl
  deriving DecidableEq, Repr

/-- The values of the `UserRole` enum. -/
def userRoleValues : List String := ["ADMIN", "USER"]

/-- The `Book` model of the persisted schema. -/
def bookModel : ModelDecl :=
  ⟨"Book",
   [⟨"id", "Int", false, true, false, some .autoincrement, false⟩,
    ⟨"title", "String", false, false, false, none, false⟩,
    ⟨"author", "String", false, false, false, none, false⟩,
    ⟨"genre", "String", false, false, false, none, false⟩,
    ⟨"publishedYear", "Int", false, false, false, none, false⟩,
    ⟨"isbn", "String", true, false, true, none, false⟩,
    ⟨"isAvailable", "Boolean", false, false, false, some (.value (.bool true)), false⟩,
    ⟨"borrowedCount", "Int", false, false, false, some (.value (.int 0)), false⟩,
    ⟨"createdAt", "DateTime", false, false, false, some .now, false⟩,
    ⟨"updatedAt", "DateTime", false, false, false, none, true⟩],
   [⟨["title", "author"], "idx_book_search"⟩],
   [],
   []⟩

/-- The `User` model of the persisted schema. -/
def userModel : ModelDecl :=
  ⟨"User",
   [⟨"id", "Int", false, true, false, some .autoincrement, false⟩,
    ⟨"fullName", "String", false, false, false, none, false⟩,
    ⟨"email", "String", false, false, true, none, false⟩,
    ⟨"password", "String", false, false, false, none, false⟩,
    ⟨"username", "String", true, false, true, none, false⟩,
    ⟨"phoneNumber", "String", true, false, false, none, false⟩,
    ⟨"accessToken", "String", true, false, false, none, false⟩,
    ⟨"refreshToken", "String", true, false, false, none, false⟩,
    ⟨"role", "UserRole", false, false, false, some (.value (.str "USER")), false⟩,
    ⟨"createdAt", "DateTime", false, false, false, some .now, false⟩,
    ⟨"updatedAt", "DateTime", false, false, false, none, true⟩],
   [],
   [],
   []⟩

/-- The `Transactions` model of the persisted schema. -/
def transactionsModel : ModelDecl :=
  ⟨"Transactions",
   [⟨"id", "Int", false, true, false, some .autoincrement, false⟩,
    ⟨"userId", "Int", false, false, false, none, false⟩,
    ⟨"bookId", "Int", false, false, false, none, false⟩,
    ⟨"borrowedAt", "DateTime", false, false, false, some .now, false⟩,
    ⟨"returnedAt", "DateTime", true, false, false, none, false⟩],
   [⟨["userId"], "idx_transactions_user"⟩,
    ⟨["bookId"], "idx_transactions_book"⟩,
    ⟨["borrowedAt"], "idx_transactions_borrowed_at"⟩],
   [],
   [⟨"userId", "User", "id"⟩, ⟨"bookId", "Book", "id"⟩]⟩

/-! ## Semantics of a schema: when a table instance satisfies a model -/

/-- A value inhabits a schema base type. -/
def typeOk (t : String) (v : Value) : Bool :=
  match t with
  | "String" => match v with | .str _ => true | _ => false
  | "Int" => match v with | .int _ => true | _ => false
  | "Boolean" => match v with | .bool _ => true | _ => false
  | "DateTime" => match v with | .dateTime _ => true | _ => false
  | "UserRole" => match v with | .str s => userRoleValues.contains s | _ => false
  | _ => false

/-- A row provides an acceptable entry for one field: the column is
present, NULL only when the field is optional, and well-typed otherwise. -/
def fieldOkIn (r : Row) (f : FieldDecl) : Bool :=
  match lookupRow r f.name with
  | none => false
  | some none => f.optional
  | some (some v) => typeOk f.baseType v

/-- A row is an acceptable row of a model. -/
def rowOk (m : ModelDecl) (r : Row) : Bool :=
  m.fields.all (fieldOkIn r)

/-- Two rows are compatible with a uniqueness constraint on column `n`:
their values differ unless at least one of them is NULL (SQL `UNIQUE`
semantics: NULLs never conflict). -/
def uniqB (n : String) (r s : Row) : Bool :=
  match lookupRow r n, lookupRow s n with
  | some (some v), some (some w) => v != w
  | _, _ => true

/-- `pairwiseB p l` holds when `p` holds on every ordered pair of
distinct positions of `l`. -/
def pairwiseB (p : α → α → Bool) : List α → Bool
  | [] => true
  | x :: xs => xs.all (p x) && pairwiseB p xs

/-- A table instance satisfies a model: every row is acceptable, and every
`@id` or `@unique` field is pairwise unique across rows. -/
def tableOk (m : ModelDecl) (rows : List Row) : Bool :=
  rows.all (rowOk m) &&
  m.fields.all (fun f => !(f.unique || f.isId) || pairwiseB (uniqB f.name) rows)

/-- A foreign key is satisfied: every non-NULL local value appears as the
referenced field of some referenced row. -/
def fkOk (fk : ForeignKeyDecl) (rows refRows : List Row) : Bool :=
  rows.all (fun r =>
    match lookupRow r fk.field with
    | some (some v) => refRows.any (fun t => lookupRow t fk.refField == some (some v))
    | some none => true
    | none => false)

/-- A database state: one table instance per model. -/
structure DBState where
  books : List Row
  users : List Row
  transactions : List Row

/-- The table a foreign key of the `Transactions` model refers to. -/
def refTable (db : DBState) (modelName : String) : List Row :=
  if modelName == "User" then db.users
  else if modelName == "Book" then db.books
  else []

/-- A database state satisfies the persisted schema: each table satisfies
its model and every declared foreign key is satisfied. -/
def dbOk (db : DBState) : Bool :=
  tableOk bookModel db.books &&
  tableOk userModel db.users &&
  tableOk transactionsModel db.transactions &&
  transactionsModel.foreignKeys.all (fun fk => fkOk fk db.transactions (refTable db fk.refModel))

/-- A transaction row is open: its `returnedAt` column is NULL. -/
def openTxn (r : Row) : Bool :=
  lookupRow r "returnedAt" == some none

/-- A transaction row borrows the book with id `b`. -/
def txnOfBook (b : Int) (r : Row) : Bool :=
  lookupRow r "bookId" == some (some (.int b))

/-! ## Registration validation chain, transcribed from the validation file -/

/-- One check of a validation chain: a predicate on the (string) field
value and the `withMessage` text reported when the predicate fails. -/
abbrev FieldCheck := (String → Bool) × String

/-- One `body(field)` chain item: the field name and its ordered checks. -/
structure ValidationItem where
  field : String
  checks : List FieldCheck

/-- Model of the external validator library's `isEmail` predicate
(simplified: a single `@` separating a nonempty local part from a
nonempty domain containing a dot). The registration claims do not
depend on its details. -/
def isEmailB (s : String) : Bool :=
  match s.splitOn "@" with
  | [lp, domain] => !lp.isEmpty && !domain.isEmpty && domain.contains '.'
  | _ => false

/-- The special characters of the password regex
`[!@#$%^&*(),.?":\x7b\x7d|<>]`. -/
def passwordSpecialChars : List Char :=
  ['!', '@', '#', '$', '%', '^', '&', '*', '(', ')', ',', '.', '?', '\"', ':',
   '\x7b', '\x7d', '|', '<', '>']

/-- The `body("password")` chain item: `isLength(min 8)` then `matches`
against the four character-class regexes, each with its message. -/
def passwordValidationItem : ValidationItem :=
  ⟨"password",
   [(fun s => 8 ≤ s.length, "Password should be at least 8 characters long"),
    (fun s => s.any (fun c => 'a' ≤ c && c ≤ 'z'),
     "Password should contain at least one lowercase letter"),
    (fun s => s.any (fun c => 'A' ≤ c && c ≤ 'Z'),
     "Password should contain at least one uppercase letter"),
    (fun s => s.any (fun c => '0' ≤ c && c ≤ '9'),
     "Password should contain at least one digit"),
    (fun s => s.any (fun c => passwordSpecialChars.contains c),
     "Password should contain at least one special character")]⟩

/-- The `registrationValidation` chain: email format, password
composition, non-empty full name, non-empty username. -/
def registrationValidation : List ValidationItem :=
  [⟨"email", [(isEmailB, "Invalid email format")]⟩,
   passwordValidationItem,
   ⟨"fullName", [(fun s => !s.isEmpty, "Full name is required")]⟩,
   ⟨"username", [(fun s => !s.isEmpty, "Company name is required")]⟩]

/-- A registration request body. A missing field is `none`; the validator
library coerces a missing value to the empty string before checking. -/
structure RegistrationBody where
  email : Option String
  password : Option String
  fullName : Option String
  username : Option String

/-- The string value a chain item checks: the named body field, with a
missing value coerced to `""`. -/
def fieldValue (b : RegistrationBody) (f : String) : String :=
  (if f == "email" then b.email
   else if f == "password" then b.password
   else if f == "fullName" then b.fullName
   else if f == "username" then b.username
   else none).getD ""

/-- The `(field, message)` errors one chain item collects on a body:
one entry per failed check, in chain order. -/
def itemErrors (b : RegistrationBody) (it : ValidationItem) : List (String × String) :=
  (it.checks.filter (fun c => !c.1 (fieldValue b it.field))).map (fun c => (it.field, c.2))

/-- All errors the registration validation chain collects on a body. -/
def registrationErrors (b : RegistrationBody) : List (String × String) :=
  (registrationValidation.map (itemErrors b)).flatten

/-- Outcome of the validation-guard middleware on a request. -/
inductive GuardOutcome
  | rejected (status : Nat) (errors : List (String × String))
  | proceed
  deriving DecidableEq, Repr

/-- Modelled from the spec: the validation-error guard middleware
(`handleValidationErrors`, whose source is outside the provided files)
short-circuits with a 400 response carrying the collected field messages
when any exist, and otherwise passes the request through unchanged. -/
def handleValidationErrorsGuard (errs : List (String × String)) : GuardOutcome :=
  if errs.isEmpty then .proceed else .rejected 400 errs

/-- The outcome of the registration route up to the validation guard. -/
def registrationOutcome (b : RegistrationBody) : GuardOutcome :=
  handleValidationErrorsGuard (registrationErrors b)

/-! ## Book router, transcribed from the router file -/

/-- An HTTP verb. -/
inductive Method
  | get | post | put | delete
  deriving DecidableEq, Repr

/-- The handlers the book router wires: the two validation-rule arrays,
the authentication middleware, the validation-error guard, and the seven
controller functions. -/
inductive Handler
  | addBookValidation
  | updateBookValidation
  | isAuthenticated
  | handleValidationErrors
  | addBook
  | updateBookDetails
  | deleteBookById
  | getBook
  | getAllBooksBorrowedByUser
  | getBooks
  | getFrequentlyBorrowedBooks
  deriving DecidableEq, Repr

/-- One route binding: verb, path pattern, and the ordered handler chain. -/
structure RouteBinding where
  method : Method
  path : String
  chain : List Handler
  deriving DecidableEq, Repr

/-- The `bookRouter` bindings, in declaration order. -/
def bookRouter : List RouteBinding :=
  [⟨.post, "/book/add",
    [.addBookValidation, .isAuthenticated, .handleValidationErrors, .addBook]⟩,
   ⟨.put, "/book/update/:id",
    [.updateBookValidation, .isAuthenticated, .handleValidationErrors, .updateBookDetails]⟩,
   ⟨.delete, "/book/delete/:id", [.isAuthenticated, .deleteBookById]⟩,
   ⟨.get, "/book/:id", [.getBook]⟩,
   ⟨.get, "/book/borrowed/:id", [.isAuthenticated, .getAllBooksBorrowedByUser]⟩,
   ⟨.get, "/books", [.getBooks]⟩,
   ⟨.get, "/books/frequently-borrowed", [.getFrequentlyBorrowedBooks]⟩]

/-- The seven controller functions; the remaining handlers are
middlewares. -/
def isController : Handler → Bool
  | .addBook | .updateBookDetails | .deleteBookById | .getBook
  | .getAllBooksBorrowedByUser | .getBooks | .getFrequentlyBorrowedBooks => true
  | _ => false

/-- A handler's behavior on a given request: `some status` responds
immediately (short-circuit), `none` calls the next handler. -/
abbrev HandlerBehavior := Handler → Option Nat

/-- Run a middleware chain under a behavior: handlers execute in order
until one responds; the executed prefix and the response (if any) are
returned. Models the host framework's sequential `next()` dispatch. -/
def runChain (behave : HandlerBehavior) : List Handler → List Handler × Option Nat
  | [] => ([], none)
  | h :: rest =>
    match behave h with
    | some status => ([h], some status)
    | none =>
      let (executed, resp) := runChain behave rest
      (h :: executed, resp)

/-- The behavior of a request carrying no (or an invalid) bearer token:
the authentication middleware responds 401 and every other handler
passes through. -/
def noTokenBehavior : HandlerBehavior :=
  fun h => if h == .isAuthenticated then some 401 else none

/-! ## Insert semantics: defaults applied when a row is created -/

/-- The stored value of one field of a freshly inserted row: the supplied
value when the insert supplies the column, otherwise the field's default
(`autoincrement()` yields the next id, `now()` and `@updatedAt` yield the
insertion time), otherwise NULL. -/
def insertFieldValue (f : FieldDecl) (supplied : Row) (nextId : Int) (now : Nat) :
    Option Value :=
  match lookupRow supplied f.name with
  | some ov => ov
  | none =>
    if f.isUpdatedAt then some (.dateTime now)
    else
      match f.dflt with
      | some .autoincrement => some (.int nextId)
      | some .now => some (.dateTime now)
      | some (.value v) => some v
      | none => none

/-- The row stored when a model receives an insert supplying the columns
of `supplied`: one column per declared field. -/
def insertRow (m : ModelDecl) (supplied : Row) (nextId : Int) (now : Nat) : Row :=
  m.fields.map (fun f => (f.name, insertFieldValue f supplied nextId now))

/-- A book row is available: its `isAvailable` column holds `true`. -/
def bookAvailable (r : Row) : Bool :=
  lookupRow r "isAvailable" == some (some (.bool true))

/-- The id of a book row, when it is an integer. -/
def bookId (r : Row) : Option Int :=
  match lookupRow r "id" with
  | some (some (.int i)) => some i
  | _ => none

/-- The availability invariant for one book row against a transaction
table: the book is available iff no open transaction borrows it. -/
def availIffNoOpen (r : Row) (txns : List Row) : Prop :=
  ∀ i, bookId r = some i →
    (bookAvailable r = true ↔ ¬ ∃ t ∈ txns, openTxn t = true ∧ txnOfBook i t = true)

/-! ## Derived router views and concrete table instances -/

/-- The controller functions of the bindings a verb+path pair resolves to
(one inner list per matching binding). -/
def controllersOf (m : Method) (p : String) : List (List Handler) :=
  (bookRouter.filter (fun b => b.method == m && b.path == p)).map
    (fun b => b.chain.filter isController)

/-- A chain is well-shaped: its last handler is a controller and every
handler before it is a middleware. -/
def chainShape (b : RouteBinding) : Bool :=
  b.chain.dropLast.all (fun h => !isController h) &&
  match b.chain.getLast? with
  | some c => isController c
  | none => false

/-- A concrete `User` row. -/
def userRowA : Row :=
  [("id", some (.int 1)), ("fullName", some (.str "Ada Lovelace")),
   ("email", some (.str "ada@example.com")), ("password", some (.str "hash1")),
   ("username", none), ("phoneNumber", none), ("accessToken", none),
   ("refreshToken", none), ("role", some (.str "USER")),
   ("createdAt", some (.dateTime 0)), ("updatedAt", some (.dateTime 0))]

/-- A concrete `Book` row (currently marked unavailable). -/
def bookRowA : Row :=
  [("id", some (.int 1)), ("title", some (.str "Dune")),
   ("author", some (.str "Frank Herbert")), ("genre", some (.str "SF")),
   ("publishedYear", some (.int 1965)), ("isbn", none),
   ("isAvailable", some (.bool false)), ("borrowedCount", some (.int 2)),
   ("createdAt", some (.dateTime 0)), ("updatedAt", some (.dateTime 0))]

/-- A concrete open `Transactions` row borrowing book 1. -/
def txnRowA : Row :=
  [("id", some (.int 1)), ("userId", some (.int 1)), ("bookId", some (.int 1)),
   ("borrowedAt", some (.dateTime 1)), ("returnedAt", none)]

/-- A second concrete open `Transactions` row borrowing book 1. -/
def txnRowB : Row :=
  [("id", some (.int 2)), ("userId", some (.int 1)), ("bookId", some (.int 1)),
   ("borrowedAt", some (.dateTime 2)), ("returnedAt", none)]

/-- A database state holding two simultaneously open transactions on the
same book. -/
def doubleBorrowDB : DBState := ⟨[bookRowA], [userRowA], [txnRowA, txnRowB]⟩

/-- A second concrete `Book` row, carrying an ISBN. -/
def bookRowB : Row :=
  [("id", some (.int 2)), ("title", some (.str "Emma")),
   ("author", some (.str "Jane Austen")), ("genre", some (.str "Novel")),
   ("publishedYear", some (.int 1815)), ("isbn", some (.str "9780141439587")),
   ("isAvailable", some (.bool true)), ("borrowedCount", some (.int 0)),
   ("createdAt", some (.dateTime 0)), ("updatedAt", some (.dateTime 0))]

/-- A second concrete `User` row, carrying a username. -/
def userRowB : Row :=
  [("id", some (.int 2)), ("fullName", some (.str "Bob Byte")),
   ("email", some (.str "bob@example.com")), ("password", some (.str "hash2")),
   ("username", some (.str "bob")), ("phoneNumber", some (.str "555-0100")),
   ("accessToken", none), ("refreshToken", none), ("role", some (.str "ADMIN")),
   ("createdAt", some (.dateTime 0)), ("updatedAt", some (.dateTime 0))]

/-- A concrete insert payload for a new book: the columns an add-book
request supplies (no id, availability, counter or timestamps). -/
def suppliedBookRow : Row :=
  [("title", some (.str "Dune")), ("author", some (.str "Frank Herbert")),
   ("genre", some (.str "SF")), ("publishedYear", some (.int 1965)),
   ("isbn", some (.str "9780441013593"))]

/-! ## Bridge lemmas -/

theorem pairwiseB_iff (p : α → α → Bool) (l : List α) :
    pairwiseB p l = true ↔ l.Pairwise (fun a b => p a b = true) := by
  induction l with
  | nil => simp [pairwiseB]
  | cons x xs ih =>
    simp [pairwiseB, List.pairwise_cons, List.all_eq_true, ih, and_comm]

theorem tableOk_unique {m : ModelDecl} {rows : List Row} {f : FieldDecl}
    (hf : f ∈ m.fields) (hu : (f.unique || f.isId) = true)
    (h : tableOk m rows = true) :
    pairwiseB (uniqB f.name) rows = true := by
  have h2 := (Bool.and_eq_true _ _).mp h |>.2
  have := (List.all_eq_true).mp h2 f hf
  simpa [hu] using this

theorem tableOk_rowOk {m : ModelDecl} {rows : List Row} {r : Row}
    (hr : r ∈ rows) (h : tableOk m rows = true) : rowOk m r = true := by
  have h1 := (Bool.and_eq_true _ _).mp h |>.1
  exact (List.all_eq_true).mp h1 r hr

theorem rowOk_field {m : ModelDecl} {r : Row} {f : FieldDecl}
    (hf : f ∈ m.fields) (h : rowOk m r = true) : fieldOkIn r f = true :=
  (List.all_eq_true).mp h f hf

theorem fieldOkIn_required {r : Row} {f : FieldDecl}
    (hopt : f.optional = false) (h : fieldOkIn r f = true) :
    ∃ v, lookupRow r f.name = some (some v) ∧ typeOk f.baseType v = true := by
  unfold fieldOkIn at h
  match hl : lookupRow r f.name with
  | none => rw [hl] at h; exact absurd h (by simp)
  | some none => rw [hl] at h; rw [hopt] at h; exact absurd h (by simp)
  | some (some v) => rw [hl] at h; exact ⟨v, rfl, h⟩

theorem uniqB_ne {n : String} {r s : Row} {v w : Value}
    (h : uniqB n r s = true)
    (hr : lookupRow r n = some (some v)) (hs : lookupRow s n = some (some w)) :
    v ≠ w := by
  unfold uniqB at h
  rw [hr, hs] at h
  simpa using h

theorem isEmpty_false_of_mem {l : List α} {a : α} (h : a ∈ l) :
    l.isEmpty = false := by
  cases l with
  | nil => exact absurd h (List.not_mem_nil a)
  | cons x xs => rfl

theorem mem_itemErrors {b : RegistrationBody} {it : ValidationItem} {c : FieldCheck}
    (hc : c ∈ it.checks) (hfail : c.1 (fieldValue b it.field) = false) :
    (it.field, c.2) ∈ itemErrors b it := by
  unfold itemErrors
  exact List.mem_map.mpr ⟨c, List.mem_filter.mpr ⟨hc, by simp [hfail]⟩, rfl⟩

theorem mem_registrationErrors {b : RegistrationBody} {it : ValidationItem}
    {e : String × String} (hit : it ∈ registrationValidation)
    (he : e ∈ itemErrors b it) : e ∈ registrationErrors b := by
  unfold registrationErrors
  exact List.mem_flatten.mpr ⟨itemErrors b it, List.mem_map.mpr ⟨it, hit, rfl⟩, he⟩

theorem registrationOutcome_rejected {b : RegistrationBody} {e : String × String}
    (he : e ∈ registrationErrors b) :
    registrationOutcome b = .rejected 400 (registrationErrors b) := by
  unfold registrationOutcome handleValidationErrorsGuard
  rw [isEmpty_false_of_mem he]
  rfl

theorem runChain_halt_stops (behave : HandlerBehavior) (pre : List Handler)
    (c : Handler) (hc : c ∉ pre) (hm : ∃ m ∈ pre, behave m ≠ none) :
    c ∉ (runChain behave (pre ++ [c])).1 := by
  induction pre with
  | nil => exact absurd hm (by simp)
  | cons h rest ih =>
    have hch : c ≠ h := fun heq => hc (heq ▸ List.mem_cons_self h rest)
    have hcr : c ∉ rest := fun hmem => hc (List.mem_cons_of_mem h hmem)
    cases hb : behave h with
    | some status =>
      simp only [List.cons_append, runChain, hb]
      simpa using hch
    | none =>
      rcases hm with ⟨m, hmmem, hmh⟩
      rcases List.mem_cons.mp hmmem with heq | hmem
      · exact absurd hb (heq ▸ hmh)
      · have := ih hcr ⟨m, hmem, hmh⟩
        simp only [List.cons_append, runChain, hb]
        intro hmem2
        rcases List.mem_cons.mp hmem2 with heq | hmem3
        · exact hch heq
        · exact this hmem3

/-! ## Claim theorems -/

/-- C7: the persisted schema declares exactly the named indexes the spec
lists — a composite index on (title, author) on `Book` named
`idx_book_search`, single-column indexes on `userId`, `bookId` and
`borrowedAt` on `Transactions` with their explicit names, and no other
index on any model. -/
theorem schema_named_indexes :
    bookModel.indexes = [⟨["title", "author"], "idx_book_search"⟩] ∧
    transactionsModel.indexes =
      [⟨["userId"], "idx_transactions_user"⟩,
       ⟨["bookId"], "idx_transactions_book"⟩,
       ⟨["borrowedAt"], "idx_transactions_borrowed_at"⟩] ∧
    userModel.indexes = [] :=
  ⟨rfl, rfl, rfl⟩

/-- C5: the book router binds exactly the seven declared verb+path pairs,
the pairs are pairwise distinct, every chain carries exactly one
controller function, and each pair resolves to exactly the named
controller. -/
theorem bookRouter_bindings :
    bookRouter.length = 7 ∧
    (bookRouter.map (fun b => (b.method, b.path))).Nodup ∧
    bookRouter.all (fun b => (b.chain.filter isController).length == 1) = true ∧
    controllersOf .post "/book/add" = [[.addBook]] ∧
    controllersOf .put "/book/update/:id" = [[.updateBookDetails]] ∧
    controllersOf .delete "/book/delete/:id" = [[.deleteBookById]] ∧
    controllersOf .get "/book/:id" = [[.getBook]] ∧
    controllersOf .get "/book/borrowed/:id" = [[.getAllBooksBorrowedByUser]] ∧
    controllersOf .get "/books" = [[.getBooks]] ∧
    controllersOf .get "/books/frequently-borrowed" = [[.getFrequentlyBorrowedBooks]] := by
  decide

/-- C9: the three read-only book routes are registered without the
authentication middleware while the four others include it; accordingly,
on a request with no bearer token the chain responds 401 exactly on the
authenticated routes and reaches a controller exactly on the open ones. -/
theorem book_routes_auth_coverage :
    ((bookRouter.filter (fun b => b.chain.contains .isAuthenticated)).map
        (fun b => (b.method, b.path))) =
      [(.post, "/book/add"), (.put, "/book/update/:id"),
       (.delete, "/book/delete/:id"), (.get, "/book/borrowed/:id")] ∧
    ((bookRouter.filter (fun b => !b.chain.contains .isAuthenticated)).map
        (fun b => (b.method, b.path))) =
      [(.get, "/book/:id"), (.get, "/books"), (.get, "/books/frequently-borrowed")] ∧
    bookRouter.all (fun b =>
      ((runChain noTokenBehavior b.chain).2 ==
        (if b.chain.contains .isAuthenticated then some 401 else none)) &&
      (((runChain noTokenBehavior b.chain).1.any isController) ==
        !b.chain.contains .isAuthenticated)) = true := by
  decide

/-- C2: the `Transactions` model declares foreign keys to `User` and
`Book` and three indexes (userId, bookId, borrowedAt), but no field-level
or composite uniqueness constraint besides the primary key; consequently
a database state with two simultaneously open transactions on the same
book satisfies the schema, so the one-open-transaction-per-book invariant
is not enforced at the schema level. -/
theorem transactions_no_open_uniqueness :
    transactionsModel.foreignKeys =
      [⟨"userId", "User", "id"⟩, ⟨"bookId", "Book", "id"⟩] ∧
    transactionsModel.indexes.map IndexDecl.fields =
      [["userId"], ["bookId"], ["borrowedAt"]] ∧
    transactionsModel.fields.all (fun f => !f.unique) = true ∧
    transactionsModel.uniques = [] ∧
    ∃ db : DBState, dbOk db = true ∧
      ∃ t1 ∈ db.transactions, ∃ t2 ∈ db.transactions, t1 ≠ t2 ∧
        openTxn t1 = true ∧ openTxn t2 = true ∧
        ∃ i : Int, txnOfBook i t1 = true ∧ txnOfBook i t2 = true := by
  refine ⟨rfl, rfl, by decide, rfl, doubleBorrowDB, by decide, txnRowA, ?_, txnRowB, ?_, ?_⟩
  · exact List.mem_cons_self _ _
  · exact List.mem_cons_of_mem _ (List.mem_cons_self _ _)
  · exact ⟨by decide, by decide, by decide, 1, by decide, by decide⟩

/-- C6: in every book-route chain the controller is the last handler and
everything before it is middleware (on POST /book/add and
PUT /book/update/:id the order is validation rules, isAuthenticated,
validation-error guard, controller); hence whenever any middleware of a
chain responds (a validation or authentication failure), the chain run
never executes the controller. -/
theorem book_routes_middleware_order :
    (bookRouter.map RouteBinding.chain).take 2 =
      [[.addBookValidation, .isAuthenticated, .handleValidationErrors, .addBook],
       [.updateBookValidation, .isAuthenticated, .handleValidationErrors, .updateBookDetails]] ∧
    bookRouter.all chainShape = true ∧
    ∀ b ∈ bookRouter, ∀ c, b.chain.getLast? = some c →
      ∀ behave : HandlerBehavior,
        (∃ m ∈ b.chain.dropLast, behave m ≠ none) →
          c ∉ (runChain behave b.chain).1 := by
  refine ⟨rfl, by decide, ?_⟩
  intro b hb c hlast behave hex
  have hshape : chainShape b = true := List.all_eq_true.mp (by decide) b hb
  unfold chainShape at hshape
  rw [hlast] at hshape
  obtain ⟨hmids, hctrl⟩ := (Bool.and_eq_true _ _).mp hshape
  have hctrl2 : isController c = true := hctrl
  have hcnot : c ∉ b.chain.dropLast := by
    intro hc
    have := List.all_eq_true.mp hmids c hc
    rw [hctrl2] at this
    exact absurd this (by decide)
  have heq : b.chain.dropLast ++ [c] = b.chain :=
    List.dropLast_append_getLast? c (Option.mem_def.mpr hlast)
  rw [← heq]
  exact runChain_halt_stops behave b.chain.dropLast c hcnot hex

/-- Witness for C6: on the first binding (POST /book/add), a request
carrying no bearer token halts at the authentication middleware and the
`addBook` controller is never executed. -/
theorem book_routes_middleware_order_witness :
    Handler.addBook ∉
      (runChain noTokenBehavior
        [.addBookValidation, .isAuthenticated, .handleValidationErrors, .addBook]).1 :=
  book_routes_middleware_order.2.2
    ⟨.post, "/book/add",
     [.addBookValidation, .isAuthenticated, .handleValidationErrors, .addBook]⟩
    (by decide) .addBook (by decide) noTokenBehavior
    ⟨.isAuthenticated, by decide, by decide⟩

/-- A well-typed `UserRole` value is `ADMIN` or `USER`. -/
theorem userRole_cases {v : Value} (h : typeOk "UserRole" v = true) :
    v = .str "ADMIN" ∨ v = .str "USER" := by
  cases v with
  | str s =>
    have h2 : userRoleValues.contains s = true := h
    have h3 : s ∈ userRoleValues := List.elem_iff.mp h2
    have h4 : s = "ADMIN" ∨ s = "USER" := by simpa [userRoleValues] using h3
    rcases h4 with h5 | h5
    · exact Or.inl (by rw [h5])
    · exact Or.inr (by rw [h5])
  | int i =>
    have hf : typeOk "UserRole" (Value.int i) = false := rfl
    rw [hf] at h
    exact absurd h (by decide)
  | bool b =>
    have hf : typeOk "UserRole" (Value.bool b) = false := rfl
    rw [hf] at h
    exact absurd h (by decide)
  | dateTime t =>
    have hf : typeOk "UserRole" (Value.dateTime t) = false := rfl
    rw [hf] at h
    exact absurd h (by decide)

/-- C3: in the `Book` model the `isbn` field is a nullable string with a
unique constraint, and in any table instance satisfying the schema no
two rows share the same non-null ISBN value. -/
theorem book_isbn_optional_unique :
    bookModel.fields.any (fun f =>
      f.name == "isbn" && f.baseType == "String" && f.optional && f.unique) = true ∧
    ∀ rows : List Row, tableOk bookModel rows = true →
      rows.Pairwise (fun r s => ∀ v : Value,
        lookupRow r "isbn" = some (some v) → lookupRow s "isbn" ≠ some (some v)) := by
  refine ⟨by decide, ?_⟩
  intro rows h
  have hf : (⟨"isbn", "String", true, false, true, none, false⟩ : FieldDecl) ∈
      bookModel.fields := by decide
  have hp := (pairwiseB_iff _ _).mp (tableOk_unique hf (by decide) h)
  refine hp.imp ?_
  intro r s hu v hr hs
  exact uniqB_ne hu hr hs rfl

/-- Witness for C3: a two-row book table with one NULL and one non-null
ISBN satisfies the schema, and the conclusion holds on it. -/
theorem book_isbn_optional_unique_witness :
    tableOk bookModel [bookRowA, bookRowB] = true ∧
    List.Pairwise (fun r s => ∀ v : Value,
      lookupRow r "isbn" = some (some v) → lookupRow s "isbn" ≠ some (some v))
      [bookRowA, bookRowB] :=
  ⟨by decide, book_isbn_optional_unique.2 [bookRowA, bookRowB] (by decide)⟩

/-- C4: the `User` model declares a unique required email, an optional
unique username, optional phone number and session tokens, and a role of
enum type `UserRole` defaulting to `USER`; in any table instance
satisfying the schema, distinct rows have different emails, distinct
rows never share a non-null username, and every row's role is `ADMIN` or
`USER`. -/
theorem user_unique_email_username :
    userModel.fields.any (fun f => f.name == "email" && !f.optional && f.unique) = true ∧
    userModel.fields.any (fun f => f.name == "username" && f.optional && f.unique) = true ∧
    userModel.fields.any (fun f => f.name == "phoneNumber" && f.optional && !f.unique) = true ∧
    userModel.fields.any (fun f => f.name == "accessToken" && f.optional) = true ∧
    userModel.fields.any (fun f => f.name == "refreshToken" && f.optional) = true ∧
    userModel.fields.any (fun f => f.name == "role" && f.baseType == "UserRole" &&
      f.dflt == some (.value (.str "USER"))) = true ∧
    ∀ rows : List Row, tableOk userModel rows = true →
      rows.Pairwise (fun r s => lookupRow r "email" ≠ lookupRow s "email") ∧
      rows.Pairwise (fun r s => ∀ v : Value,
        lookupRow r "username" = some (some v) → lookupRow s "username" ≠ some (some v)) ∧
      ∀ r ∈ rows, lookupRow r "role" = some (some (.str "ADMIN")) ∨
        lookupRow r "role" = some (some (.str "USER")) := by
  refine ⟨by decide, by decide, by decide, by decide, by decide, by decide, ?_⟩
  intro rows h
  have hemail : (⟨"email", "String", false, false, true, none, false⟩ : FieldDecl) ∈
      userModel.fields := by decide
  have husername : (⟨"username", "String", true, false, true, none, false⟩ : FieldDecl) ∈
      userModel.fields := by decide
  have hrole : (⟨"role", "UserRole", false, false, false,
      some (.value (.str "USER")), false⟩ : FieldDecl) ∈ userModel.fields := by decide
  refine ⟨?_, ?_, ?_⟩
  · have hpe := (pairwiseB_iff _ _).mp (tableOk_unique hemail (by decide) h)
    refine hpe.imp_of_mem ?_
    intro r s hr hs hu
    obtain ⟨v, hv, -⟩ := fieldOkIn_required rfl (rowOk_field hemail (tableOk_rowOk hr h))
    obtain ⟨w, hw, -⟩ := fieldOkIn_required rfl (rowOk_field hemail (tableOk_rowOk hs h))
    rw [hv, hw]
    intro heq
    have hvw : v = w := by simpa using heq
    exact uniqB_ne hu hv hw hvw
  · have hpu := (pairwiseB_iff _ _).mp (tableOk_unique husername (by decide) h)
    refine hpu.imp ?_
    intro r s hu v hr hs
    exact uniqB_ne hu hr hs rfl
  · intro r hr
    obtain ⟨v, hv, hty⟩ := fieldOkIn_required rfl (rowOk_field hrole (tableOk_rowOk hr h))
    rcases userRole_cases hty with h4 | h4
    · exact Or.inl (h4 ▸ hv)
    · exact Or.inr (h4 ▸ hv)

/-- Witness for C4: a two-row user table satisfies the schema; the
emails differ, the usernames never clash, and the roles are in the
enum. -/
theorem user_unique_email_username_witness :
    tableOk userModel [userRowA, userRowB] = true ∧
    List.Pairwise (fun r s => lookupRow r "email" ≠ lookupRow s "email")
      [userRowA, userRowB] :=
  ⟨by decide, (user_unique_email_username.2.2.2.2.2.2 [userRowA, userRowB] (by decide)).1⟩

/-- C1: the registration chain checks the password for minimum length 8,
a lowercase letter, an uppercase letter, a digit and a special
character, with five pairwise-distinct messages; a password passing all
five checks contributes no error, and a password failing any check puts
that check's message into the collected errors and makes registration
reject with a 400 response carrying them. -/
theorem registration_password_composition :
    List.Pairwise (fun a b : FieldCheck => a.2 ≠ b.2) passwordValidationItem.checks ∧
    passwordValidationItem.checks.length = 5 ∧
    (∀ b : RegistrationBody,
      (∀ c ∈ passwordValidationItem.checks, c.1 (fieldValue b "password") = true) →
      itemErrors b passwordValidationItem = []) ∧
    ∀ b : RegistrationBody, ∀ c ∈ passwordValidationItem.checks,
      c.1 (fieldValue b "password") = false →
        ("password", c.2) ∈ registrationErrors b ∧
        registrationOutcome b = .rejected 400 (registrationErrors b) := by
  refine ⟨by decide, rfl, ?_, ?_⟩
  · intro b hall
    unfold itemErrors
    have hnil : passwordValidationItem.checks.filter
        (fun c => !c.1 (fieldValue b passwordValidationItem.field)) = [] := by
      refine List.filter_eq_nil_iff.mpr ?_
      intro c hc
      have h1 : c.1 (fieldValue b passwordValidationItem.field) = true := hall c hc
      simp [h1]
    rw [hnil]
    rfl
  · intro b c hc hfail
    have hpw : passwordValidationItem ∈ registrationValidation := by
      unfold registrationValidation
      exact List.mem_cons_of_mem _ (List.mem_cons_self _ _)
    have hmem : ("password", c.2) ∈ registrationErrors b :=
      mem_registrationErrors hpw (mem_itemErrors hc hfail)
    exact ⟨hmem, registrationOutcome_rejected hmem⟩

/-- Witness for C1: the body with password "weak" fails the length check,
so registration is rejected with 400 and the length message is among the
errors. -/
theorem registration_password_composition_witness :
    ("password", "Password should be at least 8 characters long") ∈
      registrationErrors ⟨some "ada@example.com", some "weak", some "Ada", some "ada"⟩ ∧
    registrationOutcome ⟨some "ada@example.com", some "weak", some "Ada", some "ada"⟩ =
      .rejected 400
        (registrationErrors ⟨some "ada@example.com", some "weak", some "Ada", some "ada"⟩) :=
  registration_password_composition.2.2.2
    ⟨some "ada@example.com", some "weak", some "Ada", some "ada"⟩
    (fun s => 8 ≤ s.length, "Password should be at least 8 characters long")
    (by unfold passwordValidationItem; exact List.mem_cons_self _ _)
    (by decide)

/-- C8: the registration chain records the error "Company name is
required" for every body whose username is missing or empty — so
registration effectively requires a non-empty username — even though the
`User` model declares `username` optional. -/
theorem registration_requires_username :
    userModel.fields.any (fun f => f.name == "username" && f.optional) = true ∧
    ∀ b : RegistrationBody, b.username = none ∨ b.username = some "" →
      ("username", "Company name is required") ∈ registrationErrors b ∧
      registrationOutcome b = .rejected 400 (registrationErrors b) := by
  refine ⟨by decide, ?_⟩
  intro b hb
  have hval : fieldValue b "username" = "" := by
    rcases hb with h | h <;> simp [fieldValue, h]
  have hit : (⟨"username", [(fun s => !s.isEmpty, "Company name is required")]⟩ :
      ValidationItem) ∈ registrationValidation := by
    unfold registrationValidation
    exact List.mem_cons_of_mem _ (List.mem_cons_of_mem _
      (List.mem_cons_of_mem _ (List.mem_cons_self _ _)))
  have hfail : (fun s => !s.isEmpty) (fieldValue b "username") = false := by
    rw [hval]; decide
  have hmem : ("username", "Company name is required") ∈ registrationErrors b :=
    mem_registrationErrors hit
      (mem_itemErrors (List.mem_cons_self _ _) hfail)
  exact ⟨hmem, registrationOutcome_rejected hmem⟩

/-- Witness for C8: a body with no username field is rejected with 400
and the username message is among the errors. -/
theorem registration_requires_username_witness :
    ("username", "Company name is required") ∈
      registrationErrors ⟨some "ada@example.com", some "Passw0rd!", some "Ada", none⟩ ∧
    registrationOutcome ⟨some "ada@example.com", some "Passw0rd!", some "Ada", none⟩ =
      .rejected 400
        (registrationErrors ⟨some "ada@example.com", some "Passw0rd!", some "Ada", none⟩) :=
  (registration_requires_username.2
    ⟨some "ada@example.com", some "Passw0rd!", some "Ada", none⟩ (Or.inl rfl))

/-- C10: a freshly inserted book row that does not supply id,
availability, counter or creation time gets `id = nextId` from
autoincrement, `isAvailable = true`, `borrowedCount = 0` and
`createdAt = now` from the schema defaults; and against any transaction
table with no transaction on the new id, the row satisfies the
available-iff-no-open-transaction invariant. -/
theorem book_insert_defaults (supplied : Row) (nextId : Int) (now : Nat)
    (hid : lookupRow supplied "id" = none)
    (havail : lookupRow supplied "isAvailable" = none)
    (hcount : lookupRow supplied "borrowedCount" = none)
    (hcreated : lookupRow supplied "createdAt" = none) :
    lookupRow (insertRow bookModel supplied nextId now) "id" =
      some (some (.int nextId)) ∧
    lookupRow (insertRow bookModel supplied nextId now) "isAvailable" =
      some (some (.bool true)) ∧
    lookupRow (insertRow bookModel supplied nextId now) "borrowedCount" =
      some (some (.int 0)) ∧
    lookupRow (insertRow bookModel supplied nextId now) "createdAt" =
      some (some (.dateTime now)) ∧
    ∀ txns : List Row, txns.all (fun t => !txnOfBook nextId t) = true →
      availIffNoOpen (insertRow bookModel supplied nextId now) txns := by
  have g1 : lookupRow (insertRow bookModel supplied nextId now) "id" =
      some (some (.int nextId)) := by
    show some (insertFieldValue ⟨"id", "Int", false, true, false, some .autoincrement, false⟩
      supplied nextId now) = some (some (.int nextId))
    unfold insertFieldValue
    rw [hid]
    rfl
  have g2 : lookupRow (insertRow bookModel supplied nextId now) "isAvailable" =
      some (some (.bool true)) := by
    show some (insertFieldValue ⟨"isAvailable", "Boolean", false, false, false,
      some (.value (.bool true)), false⟩ supplied nextId now) = some (some (.bool true))
    unfold insertFieldValue
    rw [havail]
    rfl
  have g3 : lookupRow (insertRow bookModel supplied nextId now) "borrowedCount" =
      some (some (.int 0)) := by
    show some (insertFieldValue ⟨"borrowedCount", "Int", false, false, false,
      some (.value (.int 0)), false⟩ supplied nextId now) = some (some (.int 0))
    unfold insertFieldValue
    rw [hcount]
    rfl
  have g4 : lookupRow (insertRow bookModel supplied nextId now) "createdAt" =
      some (some (.dateTime now)) := by
    show some (insertFieldValue ⟨"createdAt", "DateTime", false, false, false,
      some .now, false⟩ supplied nextId now) = some (some (.dateTime now))
    unfold insertFieldValue
    rw [hcreated]
    rfl
  refine ⟨g1, g2, g3, g4, ?_⟩
  intro txns hall i hi
  have hbid : bookId (insertRow bookModel supplied nextId now) = some nextId := by
    unfold bookId
    rw [g1]
  rw [hbid] at hi
  have hin : nextId = i := Option.some.inj hi
  subst hin
  have havail2 : bookAvailable (insertRow bookModel supplied nextId now) = true := by
    unfold bookAvailable
    rw [g2]
    rfl
  constructor
  · intro _
    rintro ⟨t, ht, -, hb⟩
    have hx := List.all_eq_true.mp hall t ht
    rw [hb] at hx
    exact absurd hx (by decide)
  · intro _
    exact havail2

/-- Witness for C10: inserting a concrete payload as book 2 at time 5
yields the default id, availability, counter and timestamp, and the
invariant holds against a table whose only open transaction borrows
book 1. -/
theorem book_insert_defaults_witness :
    lookupRow (insertRow bookModel suppliedBookRow 2 5) "id" = some (some (.int 2)) ∧
    lookupRow (insertRow bookModel suppliedBookRow 2 5) "isAvailable" =
      some (some (.bool true)) ∧
    lookupRow (insertRow bookModel suppliedBookRow 2 5) "borrowedCount" =
      some (some (.int 0)) ∧
    lookupRow (insertRow bookModel suppliedBookRow 2 5) "createdAt" =
      some (some (.dateTime 5)) ∧
    availIffNoOpen (insertRow bookModel suppliedBookRow 2 5) [txnRowA] := by
  have h := book_insert_defaults suppliedBookRow 2 5 rfl rfl rfl rfl
  exact ⟨h.1, h.2.1, h.2.2.1, h.2.2.2.1, h.2.2.2.2 [txnRowA] (by decide)⟩
